import Mathlib

/-!
Verification development for the multi-agent travel-booking assistant.

The repository's orchestration core lives in `booking_agent.py` (the
`TravelState` pydantic model, the four agent node functions, the `router`
conditional-edge function and the graph construction), with a second,
divergent implementation under `agents/` (`supervisor.py`,
`flight_agent.py`, ...) driven by a module-level `conversation_state`
dictionary, plus the human-in-the-loop helpers of `hitl.py` and the
SerpAPI wrappers.

This file gives a shallow embedding of those parts:

* Python strings are `String` / `List Char`; the Python substring test
  `sub in s` is `strIn`, `str.lower()` is `pyLower` (`Char.toLower`
  character-wise).
* Effectful boundaries (the LLM completion call, the SerpAPI network
  round-trip, the on-disk cache) are passed in as explicit parameters of
  type `Except`/`Option`: an `Except.error` value stands for a Python
  exception raised by that boundary, which the source catches with
  `try/except`.
* Each agent node returns the partial state update (the dict literal the
  Python function returns); `apply_update` is the graph driver's channel
  merge, under which a key absent from the update keeps the channel's
  previous value.
-/

/-- Python's substring test `sub in s`, on explicit character lists
(`"" in s` is true, matching Python). -/
def strIn (sub : List Char) : List Char → Bool
  | [] => sub.isEmpty
  | c :: rest => sub.isPrefixOf (c :: rest) || strIn sub rest

/-- Python `s.lower()` as a character list (ASCII case folding via
`Char.toLower`, which is what the router's phrase lists exercise). -/
def pyLower (s : String) : List Char := s.data.map Char.toLower

/-- One entry of `TravelState.messages`: a Python dict with a `role` key and
an optional `content` key (`content` may be absent or `None`). -/
structure Message where
  role : String
  content : Option String
deriving DecidableEq, Repr

/-- One flight record as built by `search_flights_serp` in
`booking_agent.py` (prices are INR integer amounts in every code path the
repository exercises). -/
structure FlightOption where
  airline : String
  departure_time : String
  arrival_time : String
  duration : String
  price : Nat
  currency : String
  link : String
deriving DecidableEq, Repr

/-- One hotel record as built by `search_hotels_serp` in `booking_agent.py`. -/
structure HotelOption where
  name : String
  description : String
  address : String
  price_per_night : Nat
  currency : String
  rating : Nat
  amenities : List String
  image_url : String
deriving DecidableEq, Repr

/-- The `TravelState` pydantic model of `booking_agent.py` (lines 154-163).
Dict-valued fields are modelled as association lists. -/
structure TravelState where
  messages : List Message := []
  flight_options : Option (List FlightOption) := none
  hotel_options : Option (List HotelOption) := none
  itinerary : Option (List (String × String)) := none
  user_preferences : List (String × String) := []
  error : Option String := none
  error_history : List (String × String) := []
  human_feedback : List String := []

/-- The router's possible return values: the four node names and langgraph's
`END` sentinel. -/
inductive Route
  | supervisor
  | flight_agent
  | hotel_agent
  | itinerary_agent
  | END
deriving DecidableEq, Repr

/-- The `terminal_phrases` list of `router` (`booking_agent.py` lines
981-993), verbatim. -/
def terminal_phrases : List String :=
  [ "final itinerary",
    "thank you",
    "goodbye",
    "thank you for your help",
    "anything else you'd like to know",
    "is there anything else you'd like to know",
    "is there anything else i can help you with",
    "this completes your",
    "completed your request",
    "all set",
    "all done" ]

/-- Flight keyword category of `router` (line 1013). -/
def flight_terms : List String :=
  ["flight", "book a trip", "travel from", "fly to", "booking", "airline"]

/-- Hotel keyword category of `router` (line 1016). -/
def hotel_terms : List String :=
  ["hotel", "accommodation", "place to stay", "lodging", "room"]

/-- Itinerary keyword category of `router` (line 1019). -/
def itinerary_terms : List String :=
  ["itinerary", "plan", "schedule", "activities", "attractions"]

/-- The lowered text of the latest message, as `router` computes it:
`state.messages[-1]["content"].lower() if state.messages[-1].get("content")
else ""`. A missing/None content and an empty string both yield the empty
text (Python truthiness; lowering the empty string is the empty string). -/
def last_message_text (m : Message) : List Char :=
  match m.content with
  | some c => pyLower c
  | none => []

/-- The search-completion guard of `router` (lines 1006-1008): `("found" in
msg and ("flight" in msg or "hotel" in msg)) or "search results" in msg or
"search completed" in msg`. -/
def completion_guard (msg : List Char) : Bool :=
  (strIn "found".data msg &&
    (["flight", "hotel"].any fun w => strIn w.data msg)) ||
  strIn "search results".data msg ||
  strIn "search completed".data msg

/-- The `router` function of `booking_agent.py` (lines 971-1024): empty
history goes to the supervisor; a terminal phrase in the lowered latest
message ends the graph; more than 15 messages ends the graph (recursion
guard); a search-completion pattern ends the graph; otherwise the first
matching keyword category (flight, then hotel, then itinerary) picks the
specialist, defaulting to the supervisor. -/
def router (state : TravelState) : Route :=
  match state.messages.getLast? with
  | none => .supervisor
  | some last =>
    let last_message := last_message_text last
    if terminal_phrases.any (fun p => strIn p.data last_message) then .END
    else if 15 < state.messages.length then .END
    else if completion_guard last_message then .END
    else if flight_terms.any (fun t => strIn t.data last_message) then .flight_agent
    else if hotel_terms.any (fun t => strIn t.data last_message) then .hotel_agent
    else if itinerary_terms.any (fun t => strIn t.data last_message) then .itinerary_agent
    else .supervisor

/-- `HITL_ENABLED` from `config.py` (line 32): human-in-the-loop is off. -/
def HITL_ENABLED : Bool := false

/-- `DEBUG` from `booking_agent.py` (line 40): debug output and sample-data
injection are on. -/
def DEBUG : Bool := true

/-- `SUPERVISOR_PROMPT` of `booking_agent.py` (lines 166-176), with the
`HITL_ENABLED` conditional inlined as in the source. -/
def SUPERVISOR_PROMPT : String :=
  "You are the supervisor agent for a travel planning system. Your responsibilities include:\n\n1. Initial request analysis and task delegation\n2. Coordination between specialist agents\n3. Error handling and recovery\n4. Managing user interactions\n5. Ensuring all travel requirements are met\n\nUse the available tools to search for travel options and coordinate with other agents.\n"
  ++ (if HITL_ENABLED then "Always validate critical decisions with human operators since Human-in-the-Loop is enabled."
      else "Process requests automatically without human intervention since Human-in-the-Loop is disabled.")
  ++ "\nMaintain conversation context and handle transitions between agents smoothly."

/-- `FLIGHT_AGENT_PROMPT` of `booking_agent.py` (lines 178-188). -/
def FLIGHT_AGENT_PROMPT : String :=
  "You are a flight booking specialist agent. Your key responsibilities include:\n\n1. Searching for optimal flight options using SerpAPI\n2. Analyzing and filtering results based on user preferences\n3. Presenting options clearly for user selection\n4. Handling booking-related queries and issues\n5. Coordinating with other agents for complete travel planning\n\nAlways verify flight availability and pricing before presenting options.\n"
  ++ (if HITL_ENABLED then "Get human approval for final flight selections."
      else "Process flight selections automatically without human intervention.")
  ++ "\nHandle errors gracefully and suggest alternatives when needed."

/-- `HOTEL_AGENT_PROMPT` of `booking_agent.py` (lines 190-200). -/
def HOTEL_AGENT_PROMPT : String :=
  "You are a hotel booking specialist agent. Your key responsibilities include:\n\n1. Finding suitable accommodations using SerpAPI\n2. Matching hotels to user preferences and budget\n3. Verifying availability and amenities\n4. Presenting options clearly for user selection\n5. Coordinating with other agents for complete travel planning\n\nConsider location, ratings, and reviews when selecting options.\n"
  ++ (if HITL_ENABLED then "Get human approval for final hotel selections."
      else "Process hotel selections automatically without human intervention.")
  ++ "\nHandle errors gracefully and suggest alternatives when needed."

/-- `ITINERARY_AGENT_PROMPT` of `booking_agent.py` (lines 202-213). -/
def ITINERARY_AGENT_PROMPT : String :=
  "You are an itinerary planning specialist. Your key responsibilities include:\n\n1. Creating comprehensive travel schedules\n2. Incorporating flight and hotel bookings\n3. Suggesting activities and attractions\n4. Optimizing timing and logistics\n5. Providing a complete travel plan\n\nUse SerpAPI to find local attractions and activities.\nConsider travel times, check-in/out times, and local conditions.\n"
  ++ (if HITL_ENABLED then "Allow for flexibility and human customization of plans."
      else "Generate complete itineraries automatically.")
  ++ "\n"

/-- The enhanced prompt built inside `itinerary_agent` (`booking_agent.py`
lines 937-942): the base prompt plus conversation-ending instructions. -/
def ITINERARY_ENHANCED_PROMPT : String :=
  ITINERARY_AGENT_PROMPT
  ++ "\n\nWhen you've completed creating a full itinerary or answered the user's question completely, \nend your message with 'This completes your final itinerary. Is there anything else you'd like to know?'\nThis will help ensure the conversation reaches a natural conclusion.\n"

/-- The partial state update a `booking_agent.py` agent node returns: the
dict literal `{"messages": ...}` or `{"messages": ..., "error": ...}`. An
absent `error` key is the `TravelState` field's pydantic default `None`. -/
structure AgentDelta where
  messages : List Message
  error : Option String := none
deriving DecidableEq, Repr

/-- The outcome of one LLM completion call (`call_ollama` or
`client.chat.completions.create`): the assistant text, or the text of the
exception the `except` branch catches. -/
def LLMOutcome := Except String String

/-- Shared body of the four agent nodes of `booking_agent.py` (lines
834-969): copy the history, append the role-specific system directive, call
the LLM; on success append the assistant response, on exception return the
history so far plus an `error` marker. -/
def agent_node (prompt : String) (state : TravelState) (llm : LLMOutcome) : AgentDelta :=
  let messages := state.messages ++ [{ role := "system", content := some prompt }]
  match llm with
  | .ok assistant_message =>
    { messages := messages ++ [{ role := "assistant", content := some assistant_message }] }
  | .error e =>
    { messages := messages, error := some ("Error calling LLM API: " ++ e) }

/-- `supervisor_agent` of `booking_agent.py` (lines 834-864). -/
def supervisor_agent (state : TravelState) (llm : LLMOutcome) : AgentDelta :=
  agent_node SUPERVISOR_PROMPT state llm

/-- `flight_agent` of `booking_agent.py` (lines 866-896). -/
def flight_agent (state : TravelState) (llm : LLMOutcome) : AgentDelta :=
  agent_node FLIGHT_AGENT_PROMPT state llm

/-- `hotel_agent` of `booking_agent.py` (lines 898-928). -/
def hotel_agent (state : TravelState) (llm : LLMOutcome) : AgentDelta :=
  agent_node HOTEL_AGENT_PROMPT state llm

/-- `itinerary_agent` of `booking_agent.py` (lines 930-969): same shape, with
the enhanced prompt as the system directive. -/
def itinerary_agent (state : TravelState) (llm : LLMOutcome) : AgentDelta :=
  agent_node ITINERARY_ENHANCED_PROMPT state llm

/-- The langgraph `StateGraph` channel update (the external driver
`create_travel_graph` compiles, `booking_agent.py` lines 1026-1066): a
node's returned update is applied per field, last value wins, and a field
absent from the update keeps the state's previous value. The nodes return
the full new `messages` list and an `error` entry only on the failure
path (`delta.error = none` is an absent `error` key: the source never
returns `{"error": None}`). -/
def apply_update (s : TravelState) (delta : AgentDelta) : TravelState :=
  { s with
      messages := delta.messages,
      error := match delta.error with
        | some e => some e
        | none => s.error }

/-- Result of `get_human_selection` (`hitl.py` lines 20-39 and
`booking_agent.py` lines 702-764): with HITL disabled the function returns
immediately (`options[0] if options else None`); with HITL enabled it enters
the interactive CLI/Streamlit path, which blocks on human input and is
represented by the `prompt` constructor. -/
inductive SelectionResult (α : Type)
  | auto (choice : Option α)
  | prompt
deriving DecidableEq, Repr

/-- `get_human_selection` specialised to its non-interactive control flow:
`if not HITL_ENABLED: return options[0] if options else None`. -/
def get_human_selection (hitl_enabled : Bool) {α : Type} (options : List α) :
    SelectionResult α :=
  if hitl_enabled = false then
    .auto (match options with
      | [] => none
      | o :: _ => some o)
  else .prompt

/-- Result of `handle_error` (`hitl.py` lines 69-85) with HITL disabled:
`{"status": "error", "message": str(error)}`. -/
structure ErrorResolution where
  status : String
  message : String
deriving DecidableEq, Repr

/-- `handle_error` of `hitl.py` with `HITL_ENABLED = False` (the configured
value): it returns the error status dict without human interaction. -/
def handle_error_auto (error : String) : ErrorResolution :=
  { status := "error", message := error }

/-- A value stored in the `agents/` variant's dynamically typed
`conversation_state` slots: `handle_search_flights` returns a string, while
the spec's ToolGateway would store a list of options. -/
inductive ToolValue
  | str (s : String)
  | list (items : List String)
deriving DecidableEq, Repr

/-- One entry of `conversation_state["error_history"]`
(`agents/supervisor.py` lines 176-180): tool name, error text and
the `handle_error` resolution. -/
structure ErrorRecord where
  tool : String
  error : String
  resolution : ErrorResolution
deriving DecidableEq, Repr

/-- The module-level `conversation_state` dictionary of
`agents/supervisor.py` (lines 13-19). -/
structure ConversationState where
  flight_options : Option ToolValue := none
  hotel_options : Option ToolValue := none
  user_preferences : List (String × String) := []
  error_history : List ErrorRecord := []
  human_feedback : List String := []
deriving DecidableEq, Repr

/-- Python `dict.update` with a single key: drop any existing binding and
append the new one. -/
def updateKey (d : List (String × String)) (k v : String) : List (String × String) :=
  (d.filter fun p => p.1 ≠ k) ++ [(k, v)]

/-- Arguments of a `search_flights` tool call (`agents/supervisor.py`
lines 149-153). -/
structure FlightSearchArgs where
  origin : String
  destination : String
  departure_date : String
  return_date : String
deriving DecidableEq, Repr

/-- One tool-call output entry (`{"tool_call_id": ..., "output": ...}`). -/
structure ToolOutput where
  tool_call_id : String
  output : ToolValue
deriving DecidableEq, Repr

/-- The loop body of `process_tool_calls` (`agents/supervisor.py` lines
114-187) for one `search_flights` call, with HITL disabled. The handler
outcome is a parameter: `.ok result` is the value `handle_search_flights`
returned, `.error e` is the exception text when the call raises. On success
the result is stored in `flight_options` and the four search parameters are
written into `user_preferences`; on exception `handle_error` is consulted,
one record is appended to `error_history`, and an error output is emitted —
`flight_options` is not touched on that path. -/
def process_search_flights_call (cs : ConversationState)
    (handler : Except String ToolValue) (tool_call_id : String)
    (args : FlightSearchArgs) : ConversationState × List ToolOutput :=
  match handler with
  | .ok result =>
    ({ cs with
        flight_options := some result,
        user_preferences :=
          updateKey (updateKey (updateKey (updateKey cs.user_preferences
            "origin" args.origin) "destination" args.destination)
            "departure_date" args.departure_date) "return_date" args.return_date },
     [{ tool_call_id := tool_call_id, output := result }])
  | .error e =>
    let error_resolution := handle_error_auto e
    ({ cs with
        error_history := cs.error_history ++
          [{ tool := "search_flights", error := e, resolution := error_resolution }] },
     [{ tool_call_id := tool_call_id,
        output := .str ("Error: " ++ error_resolution.message
          ++ "\nResolution: No resolution provided") }])

/-- The sample flight data `search_flights_serp` injects when `DEBUG` is on
and no flight was extracted (`booking_agent.py` lines 384-405). -/
def sample_flights (departure_date : String) : List FlightOption :=
  [ { airline := "Sample Airline",
      departure_time := departure_date ++ " 08:00",
      arrival_time := departure_date ++ " 10:00",
      duration := "2h 0m",
      price := 4500,
      currency := "INR",
      link := "#sample-link" },
    { airline := "Test Airways",
      departure_time := departure_date ++ " 12:30",
      arrival_time := departure_date ++ " 14:45",
      duration := "2h 15m",
      price := 4800,
      currency := "INR",
      link := "#sample-link" } ]

/-- Control flow of `search_flights_serp` (`booking_agent.py` lines
250-419). `api_key_set` is whether `SERPAPI_API_KEY` is configured, `cached`
is the fresh cache entry if one exists, and `body` is the outcome of the
`try` block (the network round-trip plus response extraction): `.error e`
when any exception is raised inside it, `.ok flight_results` otherwise.
A missing key raises `ValueError` before anything else; a cache hit returns
the cached list; an in-body exception is caught and becomes the empty list;
with `DEBUG` on, an empty extraction is replaced by the sample data. -/
def search_flights_serp (api_key_set : Bool)
    (cached : Option (List FlightOption))
    (body : Except String (List FlightOption))
    (origin destination departure_date return_date : String) :
    Except String (List FlightOption) :=
  if api_key_set = false then
    .error "SERPAPI_API_KEY is not set in environment variables"
  else
    match cached with
    | some results => .ok results
    | none =>
      match body with
      | .error _ => .ok []
      | .ok flight_results =>
        .ok (if flight_results.isEmpty && DEBUG then sample_flights departure_date
             else flight_results)

/-- Python `str.split(sep)` helper: accumulate the current piece. -/
def pySplitAux (sep : Char) : List Char → List Char → List (List Char)
  | [], acc => [acc.reverse]
  | c :: rest, acc =>
    if c = sep then acc.reverse :: pySplitAux sep rest []
    else pySplitAux sep rest (c :: acc)

/-- Python `str.split(sep)` (`"".split(sep)` is `[""]`, matching Python). -/
def pySplit (sep : Char) (s : List Char) : List (List Char) :=
  pySplitAux sep s []

/-- The whitespace Python `str.strip()` removes. -/
def isPySpace (c : Char) : Bool :=
  c = ' ' || c = '\t' || c = '\n' || c = '\r' || c = '\x0b' || c = '\x0c'

/-- Python `str.strip()`. -/
def pyStrip (s : List Char) : List Char :=
  ((s.dropWhile isPySpace).reverse.dropWhile isPySpace).reverse

/-- The `knowledge_graph` part of a SerpAPI destination response, with the
keys `get_destination_info_serp` reads (a `none` field is an absent key). -/
structure KnowledgeGraph where
  description : Option String := none
  weather : Option String := none
  timezone : Option String := none
  currency : Option String := none
  languages : Option (List String) := none
  attractions : Option (List String) := none
deriving DecidableEq, Repr

/-- One organic search result: `title`, `snippet` and the optional `list`
key (each entry standing for `item.get('title', '')` of a list item). -/
structure OrganicResult where
  title : Option String := none
  snippet : Option String := none
  list : Option (List String) := none
deriving DecidableEq, Repr

/-- The SerpAPI destination response as `get_destination_info_serp` reads
it: an `error` key, the knowledge graph and the organic results. -/
structure SerpDestResponse where
  error : Option String := none
  knowledge_graph : Option KnowledgeGraph := none
  organic_results : Option (List OrganicResult) := none
deriving DecidableEq, Repr

/-- The `info` dictionary `get_destination_info_serp` builds
(`booking_agent.py` lines 569-576 and the knowledge-graph update of lines
578-587; the three trailing fields exist only after that update). -/
structure DestinationInfo where
  name : String
  description : String := ""
  attractions : List String := []
  weather : String := ""
  best_time_to_visit : String := ""
  local_tips : List String := []
  timezone : Option String := none
  currency : Option String := none
  languages : Option (List String) := none
deriving DecidableEq, Repr

/-- Title keywords selecting attraction snippets (`booking_agent.py` line 600). -/
def attraction_title_words : List String :=
  ["attractions", "things to do", "places to visit"]

/-- Title keywords selecting tips (`booking_agent.py` line 610). -/
def tip_title_words : List String :=
  ["tips", "guide", "advice", "travel"]

/-- Loop body of the organic-results scan (`booking_agent.py` lines
595-611): grow the attraction and tip accumulators from one result. -/
def extract_from_result (acc : List String × List String)
    (result : OrganicResult) : List String × List String :=
  let title := pyLower (result.title.getD "")
  let snippet := result.snippet.getD ""
  let attractions :=
    if attraction_title_words.any (fun word => strIn word.data title) then
      match result.list with
      | some items => acc.1 ++ items
      | none =>
        if snippet.isEmpty then acc.1
        else
          acc.1 ++ ((pySplit '.' snippet.data).filterMap fun line =>
            let t := pyStrip line
            if 15 < t.length ∧ t.length < 100 then some (String.mk t) else none)
    else acc.1
  let tips :=
    if tip_title_words.any (fun word => strIn word.data title) then acc.2 ++ [snippet]
    else acc.2
  (attractions, tips)

/-- The result-processing part of `get_destination_info_serp`
(`booking_agent.py` lines 569-625): initialise the default record, merge
the knowledge graph, scan the first five organic results, fall back to
knowledge-graph attractions, clean up, and keep the first five attractions
and three tips. -/
def build_info (destination : String) (results : SerpDestResponse) :
    DestinationInfo :=
  let info : DestinationInfo := { name := destination }
  let info :=
    match results.knowledge_graph with
    | some kg =>
      { info with
          description := kg.description.getD "",
          weather := kg.weather.getD "",
          timezone := some (kg.timezone.getD ""),
          currency := some (kg.currency.getD ""),
          languages := some (kg.languages.getD []) }
    | none => info
  match results.organic_results with
  | some organic =>
    let acc := (organic.take 5).foldl extract_from_result ([], [])
    let attractions :=
      if acc.1.isEmpty then
        match results.knowledge_graph with
        | some kg =>
          match kg.attractions with
          | some kg_attractions => kg_attractions
          | none => acc.1
        | none => acc.1
      else acc.1
    let attractions :=
      attractions.filter fun a => !a.isEmpty && decide (3 < (pyStrip a.data).length)
    let tips :=
      acc.2.filter fun t => !t.isEmpty && decide (20 < (pyStrip t.data).length)
    { info with attractions := attractions.take 5, local_tips := tips.take 3 }
  | none => info

/-- What `get_destination_info_serp` returns: the bare `{}` dict (provider
error or exception) or the populated info record. -/
inductive DestResult
  | emptyDict
  | record (info : DestinationInfo)
deriving DecidableEq, Repr

/-- Control flow of `get_destination_info_serp` (`booking_agent.py` lines
522-642). `api_key_set` is whether `SERPAPI_API_KEY` is configured, `cached`
a fresh cache entry, and `search` the outcome of the provider round-trip
(`.error e` when it raises; if the later in-`try` debug file write raised
instead, the same `except` branch returns `{}` too). A missing key raises
`ValueError` before anything else; a response carrying an `error` key and a
raised exception both yield `{}`; otherwise the info record is built. -/
def get_destination_info_serp (api_key_set : Bool) (cached : Option DestResult)
    (search : Except String SerpDestResponse) (destination : String) :
    Except String DestResult :=
  if api_key_set = false then
    .error "SERPAPI_API_KEY is not set in environment variables"
  else
    match cached with
    | some r => .ok r
    | none =>
      match search with
      | .error _ => .ok .emptyDict
      | .ok results =>
        if results.error.isSome then .ok .emptyDict
        else .ok (.record (build_info destination results))

/-- The spec's OrchestrationEngine session statuses that the claims
mention. -/
inductive EngineStatus
  | RUNNING
  | TERMINATED
deriving DecidableEq, Repr

/-- Modelled from the spec: the OrchestrationEngine marks a session
`TERMINATED` exactly when the Router returns the terminate decision
(`RUNNING --Router.terminate--> TERMINATED`); the engine itself is the
langgraph driver, external to the repository. -/
def engine_status (s : TravelState) : EngineStatus :=
  if router s = .END then .TERMINATED else .RUNNING

/-- A message on which the router's content checks fire: it matches a
terminal phrase or a search-completion pattern. -/
def content_terminal (m : Message) : Bool :=
  terminal_phrases.any (fun p => strIn p.data (last_message_text m)) ||
  completion_guard (last_message_text m)

/-- The message history after `n` turns of a run that appends the message
`run t` at turn `t` (turns counted from 0). -/
def run_messages (run : Nat → Message) (n : Nat) : List Message :=
  (List.range n).map run

/-- A state holding only a message history (all other fields default). -/
def mkState (msgs : List Message) : TravelState := { messages := msgs }

theorem getLast?_eq_none_iff_nil {α : Type} (l : List α) :
    l.getLast? = none ↔ l = [] := by
  induction l with
  | nil => simp
  | cons a as ih =>
    cases as with
    | nil => simp [List.getLast?]
    | cons b bs => simp_all [List.getLast?_cons_cons]

theorem router_end_of_length (s : TravelState) (h : 15 < s.messages.length) :
    router s = .END := by
  unfold router
  split
  case _ heq =>
    rw [getLast?_eq_none_iff_nil] at heq
    rw [heq] at h
    simp at h
  case _ last heq =>
    by_cases hterm :
        (terminal_phrases.any fun p => strIn p.data (last_message_text last)) = true
    · simp [hterm]
    · simp [hterm, h]

theorem router_not_end (s : TravelState) (last : Message)
    (hm : s.messages.getLast? = some last)
    (hterm : content_terminal last = false)
    (hlen : ¬ 15 < s.messages.length) :
    router s ≠ .END := by
  have h12 := hterm
  unfold content_terminal at h12
  obtain ⟨h1, h2⟩ := Bool.or_eq_false_iff.mp h12
  unfold router
  rw [hm]
  dsimp only
  rw [if_neg (by simp [h1]), if_neg hlen, if_neg (by simp [h2])]
  split
  · simp
  · split
    · simp
    · split <;> simp

theorem router_messages_congr (s t : TravelState) (h : s.messages = t.messages) :
    router s = router t := by
  unfold router
  rw [h]

theorem run_messages_length (run : Nat → Message) (n : Nat) :
    (run_messages run n).length = n := by
  simp [run_messages]

theorem run_messages_getLast (run : Nat → Message) (n : Nat) :
    (run_messages run (n + 1)).getLast? = some (run n) := by
  simp [run_messages, List.range_succ]

theorem terminal_any_nil :
    (terminal_phrases.any fun p => strIn p.data ([] : List Char)) = false := by decide

theorem completion_guard_nil : completion_guard [] = false := by decide

theorem flight_any_nil :
    (flight_terms.any fun t => strIn t.data ([] : List Char)) = false := by decide

theorem hotel_any_nil :
    (hotel_terms.any fun t => strIn t.data ([] : List Char)) = false := by decide

theorem itinerary_any_nil :
    (itinerary_terms.any fun t => strIn t.data ([] : List Char)) = false := by decide

/-- C1: every session terminates within the configured ceiling. First, the
router returns `END` on every state whose message count exceeds 15,
whatever the message contents (the recursion guard of `booking_agent.py`
lines 1000-1003, reached through either the terminal-phrase branch or the
count branch). Second, the scenario: a run that appends one
non-terminal-content message per turn (turns counted from 0) is `RUNNING`
after each of turns 0-14 and `TERMINATED` at turn 15 — the 16th turn — and
so never reaches a turn 16. -/
theorem c1_turn_ceiling :
    (∀ s : TravelState, 15 < s.messages.length → router s = .END) ∧
    (∀ run : Nat → Message, (∀ t, content_terminal (run t) = false) →
      (∀ t, t < 15 → engine_status (mkState (run_messages run (t + 1))) = .RUNNING) ∧
      engine_status (mkState (run_messages run 16)) = .TERMINATED) := by
  refine ⟨router_end_of_length, ?_⟩
  intro run hrun
  constructor
  · intro t ht
    have hm : (mkState (run_messages run (t + 1))).messages.getLast? = some (run t) :=
      run_messages_getLast run t
    have hlen : ¬ 15 < (mkState (run_messages run (t + 1))).messages.length := by
      simp only [mkState, run_messages_length]
      omega
    have hne := router_not_end _ _ hm (hrun t) hlen
    simp [engine_status, hne]
  · have hend : router (mkState (run_messages run 16)) = .END :=
      router_end_of_length _ (by simp [mkState, run_messages_length])
    simp [engine_status, hend]

theorem c1_turn_ceiling_witness :
    engine_status (mkState (run_messages (fun _ => ⟨"assistant", some "hello"⟩) 15))
      = .RUNNING ∧
    engine_status (mkState (run_messages (fun _ => ⟨"assistant", some "hello"⟩) 16))
      = .TERMINATED := by
  have h := c1_turn_ceiling.2 (fun _ => ⟨"assistant", some "hello"⟩)
    (fun _ => (by decide : content_terminal ⟨"assistant", some "hello"⟩ = false))
  exact ⟨h.1 14 (by decide), h.2⟩

/-- C2: whenever the lowered content of the latest message contains one of
the configured terminal phrases, the router returns `END` (the first
content check of `router`, `booking_agent.py` lines 995-998). -/
theorem c2_terminal_phrase_ends (s : TravelState) (last : Message)
    (hm : s.messages.getLast? = some last)
    (hmatch : (terminal_phrases.any fun p => strIn p.data (last_message_text last)) = true) :
    router s = .END := by
  unfold router
  rw [hm]
  dsimp only
  rw [if_pos hmatch]

theorem c2_terminal_phrase_ends_witness :
    router { messages := [⟨"assistant", some "Here is your Final Itinerary"⟩] } = .END :=
  c2_terminal_phrase_ends _ ⟨"assistant", some "Here is your Final Itinerary"⟩
    rfl (by decide)

/-- C3 counterexample: a `search_flights` tool call whose handler raises
(`ProviderError`-style failure, `agents/supervisor.py` lines 169-187) does
NOT leave `flight_options` equal to an empty options list — the exception
path never assigns `flight_options`, so it stays unset (`None`), refuting
the claimed post-state at this concrete input. -/
theorem c3_flight_failure_counterexample :
    (process_search_flights_call {} (.error "ProviderError: malformed upstream response")
        "call_1" ⟨"BOM", "IXE", "2025-05-03", "2025-05-06"⟩).1.flight_options
      ≠ some (ToolValue.list []) ∧
    (process_search_flights_call {} (.error "ProviderError: malformed upstream response")
        "call_1" ⟨"BOM", "IXE", "2025-05-03", "2025-05-06"⟩).1.flight_options
      = none := by
  constructor <;> decide

/-- C3 amended: a failing `search_flights` handler appends exactly one
record to `error_history` and leaves `flight_options` unchanged (`None`
when previously unset); the provider failure caught inside
`search_flights_serp` itself yields the empty flight list (and no error
record); and the router's decision is a function of the message history
alone, so neither effect of the failure can produce the terminate
decision by itself. -/
theorem c3_flight_failure_amended :
    (∀ (cs : ConversationState) (e tool_call_id : String) (args : FlightSearchArgs),
      (process_search_flights_call cs (.error e) tool_call_id args).1.error_history.length
        = cs.error_history.length + 1 ∧
      (process_search_flights_call cs (.error e) tool_call_id args).1.flight_options
        = cs.flight_options) ∧
    (∀ (e origin destination departure_date return_date : String),
      search_flights_serp true none (.error e) origin destination departure_date return_date
        = .ok []) ∧
    (∀ s t : TravelState, s.messages = t.messages → router s = router t) := by
  refine ⟨?_, fun e o d dep ret => rfl, router_messages_congr⟩
  intro cs e tool_call_id args
  constructor <;> simp [process_search_flights_call]

theorem c3_flight_failure_amended_witness :
    (process_search_flights_call {} (.error "ProviderError") "call_1"
        ⟨"BOM", "IXE", "2025-05-03", "2025-05-06"⟩).1.error_history.length = 1 ∧
    search_flights_serp true none (.error "ProviderError") "BOM" "IXE"
        "2025-05-03" "2025-05-06" = .ok [] ∧
    router { messages := [⟨"user", some "hi"⟩], error := some "Error searching flights" }
      = router (({ messages := [⟨"user", some "hi"⟩] } : TravelState)) := by
  refine ⟨?_, c3_flight_failure_amended.2.1 "ProviderError" "BOM" "IXE" "2025-05-03" "2025-05-06",
    c3_flight_failure_amended.2.2 _ _ rfl⟩
  have h := (c3_flight_failure_amended.1 {} "ProviderError" "call_1"
    ⟨"BOM", "IXE", "2025-05-03", "2025-05-06"⟩).1
  simpa using h

/-- C4 counterexample: with `SERPAPI_API_KEY` unset,
`get_destination_info_serp` raises `ValueError` before contacting the
provider (`booking_agent.py` lines 526-529) — so it is not true that the
function never raises for any input destination. -/
theorem c4_destination_counterexample :
    get_destination_info_serp false none (.ok {}) "Paris"
      = .error "SERPAPI_API_KEY is not set in environment variables" := rfl

/-- C4 amended: provided the API key is configured,
`get_destination_info_serp` never raises: every cache/provider outcome
returns a value; a provider exception or an `error` payload returns the
empty `{}` record, and a response with no usable content returns the
default info record for the destination, preserving forward progress. -/
theorem c4_destination_never_raises :
    (∀ (cached : Option DestResult) (search : Except String SerpDestResponse)
        (destination : String),
      ∃ r, get_destination_info_serp true cached search destination = .ok r) ∧
    (∀ (e destination : String),
      get_destination_info_serp true none (.error e) destination = .ok .emptyDict) ∧
    (∀ (results : SerpDestResponse) (destination : String),
      results.error.isSome = true →
      get_destination_info_serp true none (.ok results) destination = .ok .emptyDict) ∧
    (∀ destination : String,
      get_destination_info_serp true none (.ok {}) destination
        = .ok (.record { name := destination })) := by
  refine ⟨?_, fun e d => rfl, ?_, fun d => rfl⟩
  · intro cached search destination
    unfold get_destination_info_serp
    cases cached with
    | some r => exact ⟨r, rfl⟩
    | none =>
      cases search with
      | error e => exact ⟨.emptyDict, rfl⟩
      | ok results =>
        by_cases h : results.error.isSome
        · exact ⟨.emptyDict, by simp [h]⟩
        · exact ⟨.record (build_info destination results), by simp [h]⟩
  · intro results destination h
    simp [get_destination_info_serp, h]

theorem c4_destination_never_raises_witness :
    get_destination_info_serp true none
        (.ok { error := some "Google hasn't returned any results for this query." })
        "Paris" = .ok .emptyDict ∧
    get_destination_info_serp true none (.error "ConnectionError") "Paris"
      = .ok .emptyDict :=
  ⟨c4_destination_never_raises.2.2.1
      { error := some "Google hasn't returned any results for this query." } "Paris" rfl,
    c4_destination_never_raises.2.1 "ConnectionError" "Paris"⟩

/-- C5: the router is a pure function of the state — re-evaluating it on
the same state gives the same decision, and the decision depends on
nothing outside the message history (it reads only `state.messages`,
`booking_agent.py` lines 971-1024). -/
theorem c5_router_idempotent :
    (∀ s : TravelState, router s = router s) ∧
    (∀ s t : TravelState, s.messages = t.messages → router s = router t) :=
  ⟨fun _ => rfl, router_messages_congr⟩

theorem c5_router_idempotent_witness :
    router { messages := [⟨"user", some "plan my trip"⟩], error := some "boom" }
      = router (({ messages := [⟨"user", some "plan my trip"⟩] } : TravelState)) :=
  c5_router_idempotent.2 _ _ rfl

/-- C6: on a non-terminal latest message the keyword categories are checked
in the fixed textual order flight, hotel, itinerary, and the first match
wins (`booking_agent.py` lines 1012-1024). -/
theorem c6_category_tie_break (s : TravelState) (last : Message)
    (hm : s.messages.getLast? = some last)
    (hterm : (terminal_phrases.any fun p => strIn p.data (last_message_text last)) = false)
    (hlen : ¬ 15 < s.messages.length)
    (hcomp : completion_guard (last_message_text last) = false) :
    ((flight_terms.any fun t => strIn t.data (last_message_text last)) = true →
      router s = .flight_agent) ∧
    ((flight_terms.any fun t => strIn t.data (last_message_text last)) = false →
     (hotel_terms.any fun t => strIn t.data (last_message_text last)) = true →
      router s = .hotel_agent) ∧
    ((flight_terms.any fun t => strIn t.data (last_message_text last)) = false →
     (hotel_terms.any fun t => strIn t.data (last_message_text last)) = false →
     (itinerary_terms.any fun t => strIn t.data (last_message_text last)) = true →
      router s = .itinerary_agent) := by
  unfold router
  rw [hm]
  dsimp only
  rw [if_neg (by simp [hterm]), if_neg hlen, if_neg (by simp [hcomp])]
  refine ⟨fun hf => by rw [if_pos hf], fun hf hh => ?_, fun hf hh hi => ?_⟩
  · rw [if_neg (by simp [hf]), if_pos hh]
  · rw [if_neg (by simp [hf]), if_neg (by simp [hh]), if_pos hi]

theorem c6_category_tie_break_witness :
    router { messages := [⟨"user", some "hotel itinerary"⟩] } = .hotel_agent ∧
    router { messages := [⟨"user", some "flight hotel itinerary"⟩] } = .flight_agent := by
  constructor
  · exact (c6_category_tie_break { messages := [⟨"user", some "hotel itinerary"⟩] }
      ⟨"user", some "hotel itinerary"⟩ rfl
      (by decide) (by decide) (by decide)).2.1 (by decide) (by decide)
  · exact (c6_category_tie_break { messages := [⟨"user", some "flight hotel itinerary"⟩] }
      ⟨"user", some "flight hotel itinerary"⟩ rfl
      (by decide) (by decide) (by decide)).1 (by decide)

/-- C7: with HITL disabled, `get_human_selection` returns the first option
of a non-empty list and `None` on the empty list (`hitl.py` lines 20-23,
`booking_agent.py` lines 702-708). -/
theorem c7_select_first_when_disabled :
    (∀ (α : Type) (o : α) (rest : List α),
      get_human_selection false (o :: rest) = .auto (some o)) ∧
    (∀ α : Type, get_human_selection false ([] : List α) = .auto none) :=
  ⟨fun _ _ _ => rfl, fun _ => rfl⟩

/-- C8 counterexample: the success path never clears a previously set
`error`. Starting from a fresh state, a failed supervisor invocation sets
`error`; the next, successful invocation returns an update with no `error`
key, and the graph's channel merge keeps the old value — the merged
state's `error` is still the earlier failure text, not `None`. -/
theorem c8_error_not_cleared_counterexample :
    (apply_update
        (apply_update (mkState [⟨"user", some "hi"⟩])
          (supervisor_agent (mkState [⟨"user", some "hi"⟩]) (.error "boom")))
        (supervisor_agent
          (apply_update (mkState [⟨"user", some "hi"⟩])
            (supervisor_agent (mkState [⟨"user", some "hi"⟩]) (.error "boom")))
          (.ok "Here is the plan"))).error
      = some ("Error calling LLM API: " ++ "boom") ∧
    (apply_update
        (apply_update (mkState [⟨"user", some "hi"⟩])
          (supervisor_agent (mkState [⟨"user", some "hi"⟩]) (.error "boom")))
        (supervisor_agent
          (apply_update (mkState [⟨"user", some "hi"⟩])
            (supervisor_agent (mkState [⟨"user", some "hi"⟩]) (.error "boom")))
          (.ok "Here is the plan"))).error
      ≠ none := by
  constructor <;> decide

/-- C8 amended: on a successful completion the agent node appends the
assistant response (after its system directive) and returns an update
carrying no `error` key; under the graph's channel merge the `error` field
is therefore left unchanged — cleared only if it was already `None` — and
it is overwritten (with the failure text) only on the exception path
(`booking_agent.py` lines 834-896, the supervisor and flight nodes the
claim cites). -/
theorem c8_error_unchanged_on_success :
    ∀ (s : TravelState) (a e : String),
      (supervisor_agent s (.ok a)).messages
        = s.messages ++ [⟨"system", some SUPERVISOR_PROMPT⟩, ⟨"assistant", some a⟩] ∧
      (supervisor_agent s (.ok a)).error = none ∧
      (apply_update s (supervisor_agent s (.ok a))).error = s.error ∧
      (apply_update s (supervisor_agent s (.error e))).error
        = some ("Error calling LLM API: " ++ e) ∧
      (flight_agent s (.ok a)).messages
        = s.messages ++ [⟨"system", some FLIGHT_AGENT_PROMPT⟩, ⟨"assistant", some a⟩] ∧
      (flight_agent s (.ok a)).error = none ∧
      (apply_update s (flight_agent s (.ok a))).error = s.error ∧
      (apply_update s (flight_agent s (.error e))).error
        = some ("Error calling LLM API: " ++ e) := by
  intro s a e
  refine ⟨?_, rfl, rfl, rfl, ?_, rfl, rfl, rfl⟩ <;>
    simp [supervisor_agent, flight_agent, agent_node]

/-- C10: every agent node preserves the incoming history as a prefix and
first appends its role-specific system directive: on success the update is
the input plus exactly the system directive and the assistant response, on
LLM failure the input plus exactly the system directive
(`booking_agent.py` lines 834-969; the four nodes share this shape, the
itinerary node with its enhanced prompt). -/
theorem c10_history_append_only :
    ∀ (prompt : String) (s : TravelState) (a e : String),
      (agent_node prompt s (.ok a)).messages
        = s.messages ++ [⟨"system", some prompt⟩, ⟨"assistant", some a⟩] ∧
      (agent_node prompt s (.error e)).messages
        = s.messages ++ [⟨"system", some prompt⟩] ∧
      (∀ llm : LLMOutcome, s.messages <+: (agent_node prompt s llm).messages) ∧
      (agent_node prompt s (.ok a)).messages.length = s.messages.length + 2 ∧
      (agent_node prompt s (.error e)).messages.length = s.messages.length + 1 ∧
      supervisor_agent s = agent_node SUPERVISOR_PROMPT s ∧
      flight_agent s = agent_node FLIGHT_AGENT_PROMPT s ∧
      hotel_agent s = agent_node HOTEL_AGENT_PROMPT s ∧
      itinerary_agent s = agent_node ITINERARY_ENHANCED_PROMPT s := by
  intro prompt s a e
  refine ⟨by simp [agent_node], rfl, ?_, by simp [agent_node], by simp [agent_node],
    rfl, rfl, rfl, rfl⟩
  intro llm
  cases llm with
  | ok a2 =>
    exact ⟨[⟨"system", some prompt⟩, ⟨"assistant", some a2⟩], by simp [agent_node]⟩
  | error e2 =>
    exact ⟨[⟨"system", some prompt⟩], by simp [agent_node]⟩

/-- C9 counterexample: a state whose latest message has no content but
whose history already holds 16 messages is routed to `END` by the
recursion guard, not to the supervisor — refuting the claim's
latest-message-has-no-content half as stated. -/
theorem c9_no_content_counterexample :
    router (mkState (List.replicate 16 ⟨"assistant", none⟩)) = .END ∧
    router (mkState (List.replicate 16 ⟨"assistant", none⟩)) ≠ .supervisor := by
  constructor <;> decide

/-- C9 amended: the router is total on degenerate histories — the empty
history routes to the supervisor (the guard of `booking_agent.py` lines
973-975), and a latest message without content routes to the supervisor
provided the history is within the 15-message recursion threshold (beyond
it the count guard returns `END` first). -/
theorem c9_router_total_on_empty :
    (∀ s : TravelState, s.messages = [] → router s = .supervisor) ∧
    (∀ (s : TravelState) (last : Message),
      s.messages.getLast? = some last → last.content = none →
      ¬ 15 < s.messages.length → router s = .supervisor) := by
  constructor
  · intro s h
    unfold router
    rw [h]
    rfl
  · intro s last hm hc hlen
    have htext : last_message_text last = [] := by
      simp [last_message_text, hc]
    unfold router
    rw [hm]
    dsimp only
    rw [htext]
    rw [if_neg (by simp [terminal_any_nil]), if_neg hlen,
      if_neg (by simp [completion_guard_nil]), if_neg (by simp [flight_any_nil]),
      if_neg (by simp [hotel_any_nil]), if_neg (by simp [itinerary_any_nil])]

theorem c9_router_total_on_empty_witness :
    router (mkState []) = .supervisor ∧
    router (mkState [⟨"assistant", none⟩]) = .supervisor :=
  ⟨c9_router_total_on_empty.1 (mkState []) rfl,
    c9_router_total_on_empty.2 (mkState [⟨"assistant", none⟩]) ⟨"assistant", none⟩
      rfl rfl (by decide)⟩
